import Mathlib

/-!
Verification development for the block-structure renderer's hardcoded rules
(`src/tools/blockStructureRenderer/hardcodes.ts`): face-visibility resolution,
shading, the cuboid model builder, and the special block renderer registry.

Numeric block coordinates, sizes and texture coordinates are embedded as
rationals (`ℚ`); the banner wind animation, which involves `Math.cos` and
`Math.PI`, is analysed over the reals.
-/

namespace MCW

/-- Modelled from the spec: the `Direction` enum of the external geometry
module (`math.ts`, not part of the analysed sources) — one of the 6
axis-aligned unit directions DOWN, UP, NORTH, SOUTH, WEST, EAST. -/
inductive Direction where
  | down
  | up
  | north
  | south
  | west
  | east
deriving DecidableEq, BEq, Repr

/-- Modelled from the spec: each direction's lowercase name, the string value
of the `Direction` enum used as a block-property key (e.g. `facing → "north"`). -/
def directionName : Direction → String
  | .down => "down"
  | .up => "up"
  | .north => "north"
  | .south => "south"
  | .west => "west"
  | .east => "east"

/-- Modelled from the spec: `opposite` on the `Direction` enum. -/
def oppositeDirection : Direction → Direction
  | .down => .up
  | .up => .down
  | .north => .south
  | .south => .north
  | .west => .east
  | .east => .west

/-- Modelled from the spec: horizontal classification of a `Direction`. -/
def isHorizontalDirection : Direction → Bool
  | .north | .south | .west | .east => true
  | .down | .up => false

/-- Modelled from the spec: vertical classification of a `Direction`. -/
def isVerticalDirection : Direction → Bool
  | .down | .up => true
  | _ => false

/-- `BlockState`: a block name plus opaque string key/value properties.
TS `blockProperties` is an object; indexing a missing key yields `undefined`,
embedded here as an association list with `Option`-valued lookup. -/
structure BlockState where
  blockName : String
  blockProperties : List (String × String)
deriving DecidableEq, Repr

/-- Property lookup `blockState.blockProperties[key]`; `none` models
`undefined`. -/
def BlockState.prop (b : BlockState) (key : String) : Option String :=
  (b.blockProperties.find? (fun p => p.1 == key)).map (·.2)

/-- A name test in a name set: either an exact string or a regular expression.
Every regular expression occurring in the source has the shape `/.*X$/`,
i.e. a suffix test, embedded as such. -/
inductive NameTest where
  | exact (s : String)
  | ending (s : String)
deriving DecidableEq, Repr

/-- `nameTest instanceof RegExp ? nameTest.test(name) : nameTest === name`.
Suffix tests are evaluated on the character lists of the strings. -/
def NameTest.test (t : NameTest) (name : String) : Bool :=
  match t with
  | .exact s => name == s
  | .ending s => List.isSuffixOf s.data name.data

/-- `checkNameInSet`: does the name match any entry of the set. -/
def checkNameInSet (name : String) (nameSet : List NameTest) : Bool :=
  nameSet.any (fun t => t.test name)

/-- `halfTransparentBlocks`: the fixed half-transparent name set. -/
def halfTransparentBlocks : List NameTest :=
  [.exact "frosted_ice",
   .exact "ice",
   .exact "honey_block",
   .exact "slime_block",
   .ending "copper_grate",
   .exact "glass",
   .ending "stained_glass",
   .exact "tinted_glass"]

/-- `leavesBlocks = /.*_leaves$/`: the leaves name-ending pattern, exported
separately and not consulted by `hardCodedSkipRendering`. -/
def leavesBlocks : NameTest := .ending "_leaves"

/-- `hardCodedSkipRendering(thisBlock, otherBlock, direction)`. -/
def hardCodedSkipRendering (thisBlock otherBlock : BlockState)
    (direction : Direction) : Bool :=
  if thisBlock.blockName == "powder_snow" && otherBlock.blockName == "powder_snow" then
    true
  else if thisBlock.blockName == "iron_bars" && otherBlock.blockName == "iron_bars"
      && isHorizontalDirection direction
      && thisBlock.prop (directionName direction) == some "true"
      && otherBlock.prop (directionName (oppositeDirection direction)) == some "true" then
    true
  else if thisBlock.blockName == "mangrove_roots" && otherBlock.blockName == "mangrove_roots"
      && isVerticalDirection direction then
    true
  else
    checkNameInSet thisBlock.blockName halfTransparentBlocks
      && thisBlock.blockName == otherBlock.blockName

/-- `getShade(direction, shade)`: the per-direction light multiplier, with the
`constantAmbientLight` flag fixed to `false` as in the source. -/
def getShade (direction : Direction) (shade : Bool) : ℚ :=
  let constantAmbientLight := false
  if !shade then
    if constantAmbientLight then 9/10 else 1
  else
    match direction with
    | .down => if constantAmbientLight then 9/10 else 1/2
    | .up => if constantAmbientLight then 9/10 else 1
    | .north | .south => 8/10
    | .west | .east => 6/10

/-- `Rotation`: a pair of x/y angles in degrees (from the external `math.ts`,
as described by the spec's data model). -/
structure Rotation where
  x : ℚ
  y : ℚ
deriving DecidableEq, Repr

/-- The identity rotation constant of `math.ts`. -/
def IDENTITY_ROTATION : Rotation := ⟨0, 0⟩

/-- A UV rectangle `[u0, v0, u1, v1]` in atlas (sub-)pixel coordinates. -/
structure UVRect where
  u0 : ℚ
  v0 : ℚ
  u1 : ℚ
  v1 : ℚ
deriving DecidableEq, Repr

/-- `ModelFace`: texture slot id, UV rectangle, optional rotation flag. -/
structure ModelFace where
  texture : Nat
  uv : UVRect
  rotation : Option Nat
deriving DecidableEq, Repr

/-- One cuboid element of a model: `from`/`to` corners (named `vfrom`/`vto`
since `from` is reserved in Lean), the per-element shade flag, and the face
record. The TS face record `Record<Direction, ModelFace>` with conditional
assignment per direction is embedded as a partial map `Direction → Option
ModelFace`. -/
structure Cuboid where
  vfrom : ℚ × ℚ × ℚ
  vto : ℚ × ℚ × ℚ
  shade : Bool
  faces : Direction → Option ModelFace

/-- Modelled from the spec: `bakeModel` (external `model.ts`) takes the
unbaked model's elements and the rotation and produces a `BakedModel`; the
spec states the rotation is recorded on the baked model for the caller and
the elements' geometry and face maps are carried through (material/atlas
resolution is external and not modelled). -/
structure BakedModel where
  elements : List Cuboid
  rotation : Rotation

/-- Modelled from the spec: baking preserves the elements and records the
rotation. -/
def bakeModel (elements : List Cuboid) (rotation : Rotation) : BakedModel :=
  ⟨elements, rotation⟩

/-- The list of all six directions, the default `visibleFaces` argument of
`boxModel`, in the source's order. -/
def allSixFaces : List Direction :=
  [.down, .up, .west, .north, .east, .south]

/-- The per-face UV rectangle and rotation flag that `boxModel` assigns,
transcribed branch by branch: the `mirror` branch first, then the unmirrored
branch, each face guarded in the source by `visibleFaces.includes`. -/
def boxFace (mirror : Bool) (texture : Nat) (texOffX texOffY width height depth : ℚ) :
    Direction → ModelFace
  | .down =>
    if mirror then
      ⟨texture, ⟨texOffX + depth + width, texOffY, texOffX + depth, texOffY + depth⟩, none⟩
    else
      ⟨texture, ⟨texOffX + depth, texOffY, texOffX + depth + width, texOffY + depth⟩, none⟩
  | .up =>
    if mirror then
      ⟨texture,
        ⟨texOffX + depth + width, texOffY, texOffX + depth + width + width, texOffY + depth⟩,
        some 180⟩
    else
      ⟨texture,
        ⟨texOffX + depth + width + width, texOffY, texOffX + depth + width, texOffY + depth⟩,
        some 180⟩
  | .west =>
    if mirror then
      ⟨texture, ⟨texOffX + depth, texOffY + depth + height, texOffX, texOffY + depth⟩, none⟩
    else
      ⟨texture, ⟨texOffX + depth, texOffY + depth + height, texOffX, texOffY + depth⟩, none⟩
  | .north =>
    if mirror then
      ⟨texture,
        ⟨texOffX + depth, texOffY + depth + height, texOffX + depth + width, texOffY + depth⟩,
        none⟩
    else
      ⟨texture,
        ⟨texOffX + depth + width, texOffY + depth + height, texOffX + depth, texOffY + depth⟩,
        none⟩
  | .east =>
    if mirror then
      ⟨texture,
        ⟨texOffX + depth + width + depth, texOffY + depth + height,
          texOffX + depth + width, texOffY + depth⟩,
        none⟩
    else
      ⟨texture,
        ⟨texOffX + depth + width + depth, texOffY + depth + height,
          texOffX + depth + width, texOffY + depth⟩,
        none⟩
  | .south =>
    if mirror then
      ⟨texture,
        ⟨texOffX + depth + width + depth, texOffY + depth + height,
          texOffX + depth + width + depth + width, texOffY + depth⟩,
        none⟩
    else
      ⟨texture,
        ⟨texOffX + depth + width + depth + width, texOffY + depth + height,
          texOffX + depth + width + depth, texOffY + depth⟩,
        none⟩

/-- `boxModel(texture, materialPicker, from, size, texOff, poseOff, rotation,
visibleFaces, mirror, shade)`: builds the single-cuboid baked model. The
`materialPicker` argument is only threaded to the external `bakeModel` for
material resolution and is not modelled. All defaulted TS parameters are
explicit here. -/
def boxModel (texture : Nat) (vfrom size : ℚ × ℚ × ℚ) (texOff : ℚ × ℚ)
    (poseOff : ℚ × ℚ × ℚ) (rotation : Rotation) (visibleFaces : List Direction)
    (mirror : Bool) (shade : Bool) : BakedModel :=
  let (fromX, fromY, fromZ) := vfrom
  let (width, height, depth) := size
  let (texOffX, texOffY) := texOff
  let (poseOffX, poseOffY, poseOffZ) := poseOff
  let directionFaces : Direction → Option ModelFace := fun dir =>
    if visibleFaces.contains dir then
      some (boxFace mirror texture texOffX texOffY width height depth dir)
    else
      none
  bakeModel
    [{ vfrom := (fromX + poseOffX, fromY + poseOffY, fromZ + poseOffZ),
       vto := (fromX + width + poseOffX, fromY + height + poseOffY, fromZ + depth + poseOffZ),
       shade := shade,
       faces := directionFaces }]
    rotation

/-- The face that the (single-element) baked model assigns to a direction. -/
def BakedModel.faceOf (m : BakedModel) (dir : Direction) : Option ModelFace :=
  match m.elements with
  | [e] => e.faces dir
  | _ => none

/-- Tags identifying the render functions stored in `hardCodedRenderers`;
`noop` stands for the literal empty arrow function `() => {}` of the source,
which emits nothing. -/
inductive RenderFuncTag where
  | noop
  | chest
  | shulkerBox
  | lectern
  | enchantTable
  | bell
  | decoratedPot
  | bed
  | banner
  | skull
  | hangingSign
  | sign
deriving DecidableEq, Repr

/-- One entry of the special-renderer registry. The optional TS field
`needRenderModel` (absent means falsy) is embedded as a `Bool`. -/
structure RendererEntry where
  block : NameTest
  renderFunc : RenderFuncTag
  needRenderModel : Bool
deriving DecidableEq, Repr

/-- `hardCodedRenderers`: the ordered special block renderer registry. -/
def hardCodedRenderers : List RendererEntry :=
  [⟨.exact "water", .noop, false⟩,
   ⟨.exact "lava", .noop, false⟩,
   ⟨.exact "chest", .chest, false⟩,
   ⟨.exact "ender_chest", .chest, false⟩,
   ⟨.exact "trapped_chest", .chest, false⟩,
   ⟨.ending "shulker_box", .shulkerBox, false⟩,
   ⟨.exact "lectern", .lectern, true⟩,
   ⟨.exact "enchanting_table", .enchantTable, true⟩,
   ⟨.exact "bell", .bell, true⟩,
   ⟨.exact "decorated_pot", .decoratedPot, false⟩,
   ⟨.ending "_bed", .bed, false⟩,
   ⟨.ending "_banner", .banner, false⟩,
   ⟨.exact "piston_head", .noop, true⟩,
   ⟨.ending "_skull", .skull, false⟩,
   ⟨.ending "_head", .skull, false⟩,
   ⟨.ending "_hanging_sign", .hangingSign, false⟩,
   ⟨.ending "_sign", .sign, false⟩]

/-- Modelled from the spec: the registry lookup `renderSpecial(blockName)`
matches the block name against the ordered registry, first match wins. -/
def renderSpecial (blockName : String) : Option RendererEntry :=
  hardCodedRenderers.find? (fun e => e.block.test blockName)

/-- `fromFacingToRotation(facing)`: maps a facing property value to a
`Rotation`; any other value (including a missing property, JS `undefined`,
embedded as `none`) falls through to `Rotation(0, 0)`. -/
def fromFacingToRotation (facing : Option String) : Rotation :=
  match facing with
  | some "south" => ⟨0, 0⟩
  | some "west" => ⟨0, 90⟩
  | some "north" => ⟨0, 180⟩
  | some "east" => ⟨0, 270⟩
  | _ => ⟨0, 0⟩

/-- `renderChest`: emits the chest geometry for one block instance. Scene
emission through the external `renderModelNoCullsWithMS` is embedded as the
first component of the result (the list of baked models emitted, in order);
`console.warn` calls are the second component. `specials` is the result of
the external `modelManager.getSpecialBlocksData(blockName)` (texture indices
assumed present per the spec's contract, accessed with default `0`). -/
def renderChest (specials : List Nat) (blockState : BlockState) :
    List BakedModel × List String :=
  let normalTexture := specials.getD 0 0
  let leftTexture := specials.getD 1 0
  let rightTexture := specials.getD 2 0
  let rotation := fromFacingToRotation (blockState.prop "facing")
  if blockState.prop "type" == some "single" then
    ([boxModel normalTexture (1, 0, 1) (14, 10, 14) (0, 19) (0, 0, 0) rotation
        allSixFaces false true,
      boxModel normalTexture (1, 0, 0) (14, 5, 14) (0, 0) (0, 9, 1) rotation
        allSixFaces false true,
      boxModel normalTexture (7, -2, 14) (2, 4, 1) (0, 0) (0, 9, 1) rotation
        allSixFaces false true], [])
  else if blockState.prop "type" == some "left" then
    ([boxModel leftTexture (0, 0, 1) (15, 10, 14) (0, 19) (0, 0, 0) rotation
        allSixFaces false true,
      boxModel leftTexture (0, 0, 0) (15, 5, 14) (0, 0) (0, 9, 1) rotation
        allSixFaces false true,
      boxModel leftTexture (0, -2, 14) (1, 4, 1) (0, 0) (0, 9, 1) rotation
        allSixFaces false true], [])
  else if blockState.prop "type" == some "right" then
    ([boxModel rightTexture (1, 0, 1) (15, 10, 14) (0, 19) (0, 0, 0) rotation
        allSixFaces false true,
      boxModel rightTexture (1, 0, 0) (15, 5, 14) (0, 0) (0, 9, 1) rotation
        allSixFaces false true,
      boxModel rightTexture (15, -2, 14) (1, 4, 1) (0, 0) (0, 9, 1) rotation
        allSixFaces false true], [])
  else
    ([], ["Unknown chest type"])

/-- `renderBook`: the shared book-model builder. The four animation
parameters and the transform matrices (external THREE.js `Matrix4` values)
affect only the world transforms of the emitted cuboids, not which cuboids
are emitted; the emission sequence is the returned list — seven render
calls over six distinct models, `modelFlipPage` being emitted twice. -/
def renderBook (texture : Nat) (animParams : ℚ × ℚ × ℚ × ℚ) : List BakedModel :=
  let _ := animParams
  let modelLeftLid := boxModel texture (-6, -5, -0.005) (6, 10, 0.005) (0, 0)
    (0, 0, 0) IDENTITY_ROTATION allSixFaces false true
  let modelRightLid := boxModel texture (0, -5, -0.005) (6, 10, 0.005) (16, 0)
    (0, 0, 0) IDENTITY_ROTATION allSixFaces false true
  let modelSeam := boxModel texture (-1, -5, 0) (2, 10, 0.005) (12, 0)
    (0, 0, 0) IDENTITY_ROTATION allSixFaces false true
  let modelLeftPages := boxModel texture (0, -4, -0.99) (5, 8, 1) (0, 10)
    (0, 0, 0) IDENTITY_ROTATION allSixFaces false true
  let modelRightPages := boxModel texture (0, -4, -0.01) (5, 8, 1) (12, 10)
    (0, 0, 0) IDENTITY_ROTATION allSixFaces false true
  let modelFlipPage := boxModel texture (0, -4, 0) (5, 8, 0.005) (24, 10)
    (0, 0, 0) IDENTITY_ROTATION allSixFaces false true
  [modelLeftLid, modelRightLid, modelSeam, modelLeftPages, modelRightPages,
   modelFlipPage, modelFlipPage]

/-- `renderLecternBlock`: returns early, emitting nothing, when the
`has_book` property is the string `"false"`; otherwise emits the book models
with animation parameters `[0, 1.2, 0.1, 0.9]`. -/
def renderLecternBlock (specials : List Nat) (blockState : BlockState) :
    List BakedModel :=
  if blockState.prop "has_book" == some "false" then []
  else renderBook (specials.getD 0 0) (0, 1.2, 0.1, 0.9)

/-- `dyeColorMapping`: the fixed 16-entry dye-color table. -/
def dyeColorMapping : List (String × Nat) :=
  [("white", 0xf9fffe),
   ("orange", 0xf9801d),
   ("magenta", 0xc74ebd),
   ("light_blue", 0x3ab3da),
   ("yellow", 0xfed83d),
   ("lime", 0x80c71f),
   ("pink", 0xf38baa),
   ("gray", 0x474f52),
   ("light_gray", 0x9d9d97),
   ("cyan", 0x169c9c),
   ("purple", 0x8932b8),
   ("blue", 0x3c44aa),
   ("brown", 0x835432),
   ("green", 0x5e7c16),
   ("red", 0xb02e26),
   ("black", 0x1d1d21)]

/-- Table lookup; `none` models a JS `undefined` member access. -/
def dyeColorOf (key : String) : Option Nat :=
  dyeColorMapping.lookup key

/-- `blockName.substring(0, blockName.indexOf('_'))` as computed by
`renderBanner` at the dye-color lookup: the prefix of the block name before
its first underscore, evaluated on the character list. When the name has no
underscore, JS `indexOf` returns `-1` and `substring(0, -1)` clamps to the
empty string. -/
def bannerColorKey (blockName : String) : String :=
  if blockName.data.contains '_' then ⟨blockName.data.takeWhile (· != '_')⟩
  else ""

/-- The dye color the banner renderer resolves for a block name:
`dyeColorMapping[blockName.substring(0, blockName.indexOf('_'))]`. -/
def bannerDyeColor (blockName : String) : Option Nat :=
  dyeColorOf (bannerColorKey blockName)

/-- `wind = ((x * 7 + y * 9 + z * 13 + time) % 100) / 100` from
`renderBanner`, for integer coordinates and time. The JS `%` operator on
integer operands is truncated remainder, i.e. `Int.tmod`. -/
def bannerWind (x y z time : ℤ) : ℚ :=
  ((x * 7 + y * 9 + z * 13 + time).tmod 100 : ℚ) / 100

/-- `angle = Math.PI * (-0.0125 + 0.01 * Math.cos(Math.PI * 2 * wind))`
from `renderBanner`, over the reals. -/
noncomputable def bannerAngle (x y z time : ℤ) : ℝ :=
  Real.pi * (-0.0125 + 0.01 * Real.cos (Real.pi * 2 * ((bannerWind x y z time : ℚ) : ℝ)))

/-- The horizontal (U-coordinate) flip of a model face's UV rectangle. -/
def flipU (f : ModelFace) : ModelFace :=
  ⟨f.texture, ⟨f.uv.u1, f.uv.v0, f.uv.u0, f.uv.v1⟩, f.rotation⟩

/-- The absolute U-extent of a face's UV rectangle. -/
def uSpan (f : ModelFace) : ℚ := |f.uv.u0 - f.uv.u1|

/-- The absolute V-extent of a face's UV rectangle. -/
def vSpan (f : ModelFace) : ℚ := |f.uv.v0 - f.uv.v1|

/-- Bridge lemma: the face `boxModel` produces for a direction is the
`boxFace` formula when the direction is visible, and absent otherwise. -/
theorem boxModel_faceOf_eq (texture : Nat) (vfrom : ℚ × ℚ × ℚ) (w h dp tx ty : ℚ)
    (poseOff : ℚ × ℚ × ℚ) (rot : Rotation) (vis : List Direction)
    (mirror sh : Bool) (dir : Direction) :
    (boxModel texture vfrom (w, h, dp) (tx, ty) poseOff rot vis mirror sh).faceOf dir =
      if vis.contains dir then some (boxFace mirror texture tx ty w h dp dir)
      else none := by
  obtain ⟨fx, fy, fz⟩ := vfrom
  obtain ⟨px, py, pz⟩ := poseOff
  rfl

/-!  Theorems settling the claims. -/

/-- C3: for every direction `getShade d false = 1`; with shading applied the
multipliers are DOWN ↦ 0.5, UP ↦ 1, NORTH/SOUTH ↦ 0.8, EAST/WEST ↦ 0.6; in
every case the returned multiplier lies in the half-open interval (0, 1]. -/
theorem getShade_values_and_bounds :
    ∀ (d : Direction) (s : Bool),
      getShade d false = 1 ∧
      (0 < getShade d s ∧ getShade d s ≤ 1) ∧
      getShade Direction.down true = 1/2 ∧
      getShade Direction.up true = 1 ∧
      getShade Direction.north true = 8/10 ∧
      getShade Direction.south true = 8/10 ∧
      getShade Direction.east true = 6/10 ∧
      getShade Direction.west true = 6/10 := by
  intro d s
  cases d <;> cases s <;> norm_num [getShade]

/-- C2: for two blocks both named `iron_bars`, `hardCodedSkipRendering`
returns `true` exactly when the direction is horizontal, this block's
property named after the direction is `"true"`, and the other block's
property named after the opposite direction is `"true"`. -/
theorem iron_bars_skip_iff (b1 b2 : BlockState) (d : Direction)
    (h1 : b1.blockName = "iron_bars") (h2 : b2.blockName = "iron_bars") :
    hardCodedSkipRendering b1 b2 d = true ↔
      (isHorizontalDirection d = true ∧
        b1.prop (directionName d) = some "true" ∧
        b2.prop (directionName (oppositeDirection d)) = some "true") := by
  have hc : checkNameInSet "iron_bars" halfTransparentBlocks = false := by decide
  unfold hardCodedSkipRendering
  rw [h1, h2]
  simp [hc, and_assoc]

/-- Witness for C2 at a concrete pair of connected iron bars. -/
theorem iron_bars_skip_iff_witness :
    hardCodedSkipRendering ⟨"iron_bars", [("north", "true")]⟩
      ⟨"iron_bars", [("south", "true")]⟩ Direction.north = true :=
  (iron_bars_skip_iff ⟨"iron_bars", [("north", "true")]⟩
      ⟨"iron_bars", [("south", "true")]⟩ Direction.north rfl rfl).mpr (by decide)

/-- C1 counterexample: two adjacent blocks both named `oak_leaves` (a name
ending in `_leaves`) are NOT skipped by `hardCodedSkipRendering`, in any
direction — the separately tracked leaves pattern is never consulted. -/
theorem leaves_not_skipped_cex :
    hardCodedSkipRendering ⟨"oak_leaves", []⟩ ⟨"oak_leaves", []⟩ Direction.up = false := by
  decide

/-- C1 (amended): whenever two adjacent blocks share a name that is in the
half-transparent set (the exact names plus the `copper_grate` and
`stained_glass` suffix rules — leaves names are not in this set),
`hardCodedSkipRendering` returns `true` for every direction; it returns
`false` for `glass` next to `tinted_glass` (different names) and `false`
for two adjacent `oak_leaves` blocks. -/
theorem halfTransparent_skip_amended :
    (∀ (b1 b2 : BlockState) (d : Direction), b1.blockName = b2.blockName →
      checkNameInSet b1.blockName halfTransparentBlocks = true →
      hardCodedSkipRendering b1 b2 d = true) ∧
    (∀ d : Direction,
      hardCodedSkipRendering ⟨"glass", []⟩ ⟨"tinted_glass", []⟩ d = false) ∧
    (∀ d : Direction,
      hardCodedSkipRendering ⟨"oak_leaves", []⟩ ⟨"oak_leaves", []⟩ d = false) := by
  refine ⟨?_, ?_, ?_⟩
  · intro b1 b2 d h1 h2
    unfold hardCodedSkipRendering
    split
    · rfl
    · split
      · rfl
      · split
        · rfl
        · rw [h1] at h2 ⊢
          simp [h2]
  · intro d; cases d <;> decide
  · intro d; cases d <;> decide

/-- Witness for C1 at two adjacent glass blocks. -/
theorem halfTransparent_skip_amended_witness :
    hardCodedSkipRendering ⟨"glass", []⟩ ⟨"glass", []⟩ Direction.north = true :=
  halfTransparent_skip_amended.1 ⟨"glass", []⟩ ⟨"glass", []⟩ Direction.north rfl
    (by decide)

/-- C6 counterexample: the registry entry selected for `piston_head` has
`needRenderModel = true`, i.e. it requests that the generic model also be
rendered, rather than suppressing it as the claim states. -/
theorem piston_head_needRenderModel_cex :
    (renderSpecial "piston_head").map RendererEntry.needRenderModel = some true := by
  decide

/-- C6 (amended): matching `piston_head` in list order selects — before the
generic `_head$` skull pattern, which also matches and appears later in the
registry — the entry whose render function is the empty function `() => {}`
(emitting no geometry) and which requests the generic model to be rendered
(`needRenderModel = true`), thereby suppressing only the skull special
renderer. -/
theorem piston_head_registry_amended :
    renderSpecial "piston_head" =
      some ⟨NameTest.exact "piston_head", RenderFuncTag.noop, true⟩ ∧
    NameTest.test (NameTest.ending "_head") "piston_head" = true ∧
    (⟨NameTest.ending "_head", RenderFuncTag.skull, false⟩ : RendererEntry) ∈
      hardCodedRenderers := by
  refine ⟨by decide, by decide, by decide⟩

/-- C7: the chest renderer with `type="single"` emits exactly 3 cuboids and
no warning; with the unrecognized `type="middle"` it emits 0 cuboids and
exactly one warning (and, being a total function, never throws). -/
theorem renderChest_single_and_unknown (specials : List Nat) (b1 b2 : BlockState)
    (h1 : b1.prop "type" = some "single") (h2 : b2.prop "type" = some "middle") :
    (renderChest specials b1).1.length = 3 ∧ (renderChest specials b1).2 = [] ∧
    (renderChest specials b2).1 = [] ∧ (renderChest specials b2).2.length = 1 := by
  unfold renderChest
  rw [h1, h2]
  simp

/-- Witness for C7 at concrete chest block states. -/
theorem renderChest_single_and_unknown_witness :
    (renderChest [1, 2, 3] ⟨"chest", [("type", "single")]⟩).1.length = 3 ∧
    (renderChest [1, 2, 3] ⟨"chest", [("type", "middle")]⟩).2.length = 1 :=
  ⟨(renderChest_single_and_unknown [1, 2, 3] ⟨"chest", [("type", "single")]⟩
      ⟨"chest", [("type", "middle")]⟩ (by decide) (by decide)).1,
   (renderChest_single_and_unknown [1, 2, 3] ⟨"chest", [("type", "single")]⟩
      ⟨"chest", [("type", "middle")]⟩ (by decide) (by decide)).2.2.2⟩

/-- C8: evaluation of the banner dye-color lookup at the failing inputs —
the key is the substring before the FIRST underscore, so `light_blue_banner`
and `light_gray_banner` look up `"light"`, which is not in the table and
yields `undefined` (`none`), although the table itself does contain
`light_blue` and `light_gray`; simple color names such as `red` resolve. -/
theorem bannerDyeColor_light_colors_bug :
    bannerColorKey "light_blue_banner" = "light" ∧
    bannerDyeColor "light_blue_banner" = none ∧
    bannerDyeColor "light_gray_banner" = none ∧
    bannerDyeColor "red_banner" = some 0xb02e26 ∧
    (dyeColorMapping.lookup "light_blue").isSome = true ∧
    (dyeColorMapping.lookup "light_gray").isSome = true ∧
    dyeColorMapping.length = 16 := by
  refine ⟨by decide, by decide, by decide, by decide, by decide, by decide, by decide⟩

/-- C10: the lectern renderer emits nothing when `has_book` is the string
`"false"`, and emits the seven book cuboids for any other value of the
property, including when the property is absent. -/
theorem lectern_book_emission (specials : List Nat) (b : BlockState) :
    (b.prop "has_book" = some "false" → renderLecternBlock specials b = []) ∧
    (b.prop "has_book" ≠ some "false" →
      (renderLecternBlock specials b).length = 7) := by
  constructor
  · intro h
    simp [renderLecternBlock, h]
  · intro h
    have hb : (b.prop "has_book" == some "false") = false := by
      simpa using h
    simp [renderLecternBlock, hb, renderBook]

/-- Witness for C10: a lectern with `has_book="false"` emits nothing; one
with the property absent emits the 7 book cuboids. -/
theorem lectern_book_emission_witness :
    renderLecternBlock [1] ⟨"lectern", [("has_book", "false")]⟩ = [] ∧
    (renderLecternBlock [1] ⟨"lectern", [("facing", "north")]⟩).length = 7 :=
  ⟨(lectern_book_emission [1] ⟨"lectern", [("has_book", "false")]⟩).1 (by decide),
   (lectern_book_emission [1] ⟨"lectern", [("facing", "north")]⟩).2 (by decide)⟩

/-- C5: for every input, the model produced by `boxModel` consists of exactly
one cuboid element, and its face map assigns a face only to directions that
are members of the requested visible-face set. -/
theorem boxModel_one_element_faces_subset (texture : Nat) (vfrom size : ℚ × ℚ × ℚ)
    (texOff : ℚ × ℚ) (poseOff : ℚ × ℚ × ℚ) (rot : Rotation) (vis : List Direction)
    (mirror sh : Bool) :
    (boxModel texture vfrom size texOff poseOff rot vis mirror sh).elements.length = 1 ∧
    ∀ dir : Direction,
      ((boxModel texture vfrom size texOff poseOff rot vis mirror sh).faceOf dir).isSome
        = true →
      vis.contains dir = true := by
  obtain ⟨fx, fy, fz⟩ := vfrom
  obtain ⟨w, h, dp⟩ := size
  obtain ⟨tx, ty⟩ := texOff
  obtain ⟨px, py, pz⟩ := poseOff
  constructor
  · rfl
  · intro dir hsome
    rw [boxModel_faceOf_eq] at hsome
    cases hc : vis.contains dir with
    | true => rfl
    | false => rw [hc] at hsome; simp at hsome

/-- Witness for C5 at a concrete call with a single visible face. -/
theorem boxModel_one_element_faces_subset_witness :
    (boxModel 0 (0, 0, 0) (1, 1, 1) (0, 0) (0, 0, 0) IDENTITY_ROTATION
        [Direction.up] false true).elements.length = 1 ∧
    [Direction.up].contains Direction.up = true :=
  ⟨(boxModel_one_element_faces_subset 0 (0, 0, 0) (1, 1, 1) (0, 0) (0, 0, 0)
      IDENTITY_ROTATION [Direction.up] false true).1,
   (boxModel_one_element_faces_subset 0 (0, 0, 0) (1, 1, 1) (0, 0) (0, 0, 0)
      IDENTITY_ROTATION [Direction.up] false true).2 Direction.up (by decide)⟩

/-- C4 counterexample: on a concrete input with all six faces visible, the
WEST face's UV rectangle with `mirror=true` is identical to — not a flip of,
and not distinct from — the rectangle with `mirror=false`, and the face is
present. -/
theorem boxModel_mirror_west_cex :
    (boxModel 0 (0, 0, 0) (2, 3, 4) (0, 0) (0, 0, 0) IDENTITY_ROTATION allSixFaces
        true true).faceOf Direction.west =
      (boxModel 0 (0, 0, 0) (2, 3, 4) (0, 0) (0, 0, 0) IDENTITY_ROTATION allSixFaces
        false true).faceOf Direction.west ∧
    ((boxModel 0 (0, 0, 0) (2, 3, 4) (0, 0) (0, 0, 0) IDENTITY_ROTATION allSixFaces
        false true).faceOf Direction.west).isSome = true :=
  ⟨rfl, rfl⟩

/-- C4 (amended): with `mirror=true`, `boxModel` produces — for the DOWN, UP,
NORTH and SOUTH faces — the horizontal flip (swapped U-coordinates) of the
`mirror=false` rectangle, distinct from it whenever the width is positive;
for the WEST and EAST faces the mirrored rectangle is IDENTICAL to the
unmirrored one; and every produced rectangle is internally consistent: its
U-span is the face's width (DOWN, UP, NORTH, SOUTH) or depth (WEST, EAST)
and its V-span is the face's depth (DOWN, UP) or height (sides). -/
theorem boxModel_mirror_uv_amended (t : Nat) (v : ℚ × ℚ × ℚ) (w h dp tx ty : ℚ)
    (p : ℚ × ℚ × ℚ) (r : Rotation) (vis : List Direction) (sh : Bool)
    (hw : 0 ≤ w) (hh : 0 ≤ h) (hdp : 0 ≤ dp) :
    (∀ dir : Direction,
      dir = Direction.down ∨ dir = Direction.up ∨ dir = Direction.north ∨
        dir = Direction.south →
      (boxModel t v (w, h, dp) (tx, ty) p r vis true sh).faceOf dir =
        ((boxModel t v (w, h, dp) (tx, ty) p r vis false sh).faceOf dir).map flipU) ∧
    (∀ dir : Direction, dir = Direction.west ∨ dir = Direction.east →
      (boxModel t v (w, h, dp) (tx, ty) p r vis true sh).faceOf dir =
        (boxModel t v (w, h, dp) (tx, ty) p r vis false sh).faceOf dir) ∧
    (0 < w →
      ∀ dir : Direction,
        dir = Direction.down ∨ dir = Direction.up ∨ dir = Direction.north ∨
          dir = Direction.south →
        vis.contains dir = true →
        (boxModel t v (w, h, dp) (tx, ty) p r vis true sh).faceOf dir ≠
          (boxModel t v (w, h, dp) (tx, ty) p r vis false sh).faceOf dir) ∧
    (∀ (mirror : Bool) (f : ModelFace),
      ((boxModel t v (w, h, dp) (tx, ty) p r vis mirror sh).faceOf Direction.down
          = some f → uSpan f = w ∧ vSpan f = dp) ∧
      ((boxModel t v (w, h, dp) (tx, ty) p r vis mirror sh).faceOf Direction.up
          = some f → uSpan f = w ∧ vSpan f = dp) ∧
      ((boxModel t v (w, h, dp) (tx, ty) p r vis mirror sh).faceOf Direction.north
          = some f → uSpan f = w ∧ vSpan f = h) ∧
      ((boxModel t v (w, h, dp) (tx, ty) p r vis mirror sh).faceOf Direction.south
          = some f → uSpan f = w ∧ vSpan f = h) ∧
      ((boxModel t v (w, h, dp) (tx, ty) p r vis mirror sh).faceOf Direction.west
          = some f → uSpan f = dp ∧ vSpan f = h) ∧
      ((boxModel t v (w, h, dp) (tx, ty) p r vis mirror sh).faceOf Direction.east
          = some f → uSpan f = dp ∧ vSpan f = h)) := by
  refine ⟨?_, ?_, ?_, ?_⟩
  · intro dir hd
    rcases hd with rfl | rfl | rfl | rfl
    · rw [boxModel_faceOf_eq, boxModel_faceOf_eq]
      cases hc : vis.contains Direction.down <;> simp [hc, boxFace, flipU]
    · rw [boxModel_faceOf_eq, boxModel_faceOf_eq]
      cases hc : vis.contains Direction.up <;> simp [hc, boxFace, flipU]
    · rw [boxModel_faceOf_eq, boxModel_faceOf_eq]
      cases hc : vis.contains Direction.north <;> simp [hc, boxFace, flipU]
    · rw [boxModel_faceOf_eq, boxModel_faceOf_eq]
      cases hc : vis.contains Direction.south <;> simp [hc, boxFace, flipU]
  · intro dir hd
    rcases hd with rfl | rfl
    · rw [boxModel_faceOf_eq, boxModel_faceOf_eq]
      cases hc : vis.contains Direction.west <;> simp [hc, boxFace]
    · rw [boxModel_faceOf_eq, boxModel_faceOf_eq]
      cases hc : vis.contains Direction.east <;> simp [hc, boxFace]
  · intro hpos dir hd hc
    rcases hd with rfl | rfl | rfl | rfl <;>
      (rw [boxModel_faceOf_eq, boxModel_faceOf_eq, if_pos hc, if_pos hc]
       intro heq
       injection heq with h0
       have h1 := congrArg (fun f => (ModelFace.uv f).u0) h0
       simp [boxFace] at h1
       linarith)
  · intro mirror f
    refine ⟨?_, ?_, ?_, ?_, ?_, ?_⟩
    · intro hf
      rw [boxModel_faceOf_eq] at hf
      cases hcv : vis.contains Direction.down
      · simp [hcv] at hf
      · simp [hcv] at hf
        subst hf
        cases mirror <;>
          exact ⟨by simp [uSpan, boxFace, abs_eq hw],
                 by simp [vSpan, boxFace, abs_eq hdp]⟩
    · intro hf
      rw [boxModel_faceOf_eq] at hf
      cases hcv : vis.contains Direction.up
      · simp [hcv] at hf
      · simp [hcv] at hf
        subst hf
        cases mirror <;>
          exact ⟨by simp [uSpan, boxFace, abs_eq hw],
                 by simp [vSpan, boxFace, abs_eq hdp]⟩
    · intro hf
      rw [boxModel_faceOf_eq] at hf
      cases hcv : vis.contains Direction.north
      · simp [hcv] at hf
      · simp [hcv] at hf
        subst hf
        cases mirror <;>
          exact ⟨by simp [uSpan, boxFace, abs_eq hw],
                 by simp [vSpan, boxFace, abs_eq hh]⟩
    · intro hf
      rw [boxModel_faceOf_eq] at hf
      cases hcv : vis.contains Direction.south
      · simp [hcv] at hf
      · simp [hcv] at hf
        subst hf
        cases mirror <;>
          exact ⟨by simp [uSpan, boxFace, abs_eq hw],
                 by simp [vSpan, boxFace, abs_eq hh]⟩
    · intro hf
      rw [boxModel_faceOf_eq] at hf
      cases hcv : vis.contains Direction.west
      · simp [hcv] at hf
      · simp [hcv] at hf
        subst hf
        cases mirror <;>
          exact ⟨by simp [uSpan, boxFace, abs_eq hdp],
                 by simp [vSpan, boxFace, abs_eq hh]⟩
    · intro hf
      rw [boxModel_faceOf_eq] at hf
      cases hcv : vis.contains Direction.east
      · simp [hcv] at hf
      · simp [hcv] at hf
        subst hf
        cases mirror <;>
          exact ⟨by simp [uSpan, boxFace, abs_eq hdp],
                 by simp [vSpan, boxFace, abs_eq hh]⟩

/-- Witness for C4 on a concrete box: the DOWN face is flipped and distinct
under mirroring. -/
theorem boxModel_mirror_uv_amended_witness :
    (boxModel 0 (0, 0, 0) (2, 3, 4) (0, 0) (0, 0, 0) IDENTITY_ROTATION allSixFaces
        true true).faceOf Direction.down =
      ((boxModel 0 (0, 0, 0) (2, 3, 4) (0, 0) (0, 0, 0) IDENTITY_ROTATION allSixFaces
        false true).faceOf Direction.down).map flipU ∧
    (boxModel 0 (0, 0, 0) (2, 3, 4) (0, 0) (0, 0, 0) IDENTITY_ROTATION allSixFaces
        true true).faceOf Direction.down ≠
      (boxModel 0 (0, 0, 0) (2, 3, 4) (0, 0) (0, 0, 0) IDENTITY_ROTATION allSixFaces
        false true).faceOf Direction.down :=
  ⟨(boxModel_mirror_uv_amended 0 (0, 0, 0) 2 3 4 0 0 (0, 0, 0) IDENTITY_ROTATION
      allSixFaces true (by decide) (by decide) (by decide)).1
      Direction.down (Or.inl rfl),
   (boxModel_mirror_uv_amended 0 (0, 0, 0) 2 3 4 0 0 (0, 0, 0) IDENTITY_ROTATION
      allSixFaces true (by decide) (by decide) (by decide)).2.2.1
      (by decide) Direction.down (Or.inl rfl) (by decide)⟩

/-- The truncated remainder is an odd function of the dividend. -/
theorem tmod_neg_dividend (a b : ℤ) : (-a).tmod b = -(a.tmod b) := by
  rw [Int.tmod_def, Int.tmod_def, Int.neg_tdiv]
  ring

/-- Shifting the dividend by the (positive) divisor changes a truncated
remainder either not at all or by exactly the divisor (the latter exactly
when the dividend crosses zero). -/
theorem tmod_add_hundred (s : ℤ) :
    (s + 100).tmod 100 = s.tmod 100 ∨ (s + 100).tmod 100 = s.tmod 100 + 100 := by
  rcases le_or_lt 0 s with hs | hs
  · left
    rw [Int.tmod_eq_emod hs (by norm_num), Int.tmod_eq_emod (by omega) (by norm_num)]
    omega
  · have h1 := tmod_neg_dividend (-s) 100
    rw [neg_neg] at h1
    rw [Int.tmod_eq_emod (show (0 : ℤ) ≤ -s by omega) (by norm_num)] at h1
    rcases le_or_lt 0 (s + 100) with h2 | h2
    · rw [Int.tmod_eq_emod h2 (by norm_num), h1]
      omega
    · have h3 := tmod_neg_dividend (-(s + 100)) 100
      rw [neg_neg] at h3
      rw [Int.tmod_eq_emod (show (0 : ℤ) ≤ -(s + 100) by omega) (by norm_num)] at h3
      rw [h3, h1]
      omega

/-- Advancing the banner time by 100 leaves `wind` unchanged or increases it
by exactly 1 (JS `%` truncates toward zero, so the two cases correspond to
the dividend staying on one side of zero or crossing it). -/
theorem bannerWind_succ (x y z time : ℤ) :
    bannerWind x y z (time + 100) = bannerWind x y z time ∨
    bannerWind x y z (time + 100) = bannerWind x y z time + 1 := by
  unfold bannerWind
  rw [show x * 7 + y * 9 + z * 13 + (time + 100)
      = (x * 7 + y * 9 + z * 13 + time) + 100 from by ring]
  rcases tmod_add_hundred (x * 7 + y * 9 + z * 13 + time) with hcase | hcase
  · left
    rw [hcase]
  · right
    rw [hcase]
    push_cast
    ring

/-- C9 counterexample: at block coordinates `x = -10, y = 0, z = 0`, the
wind value is NOT periodic in time with period 100: at `time = 0` the JS
remainder of `-70 % 100` is `-70` (wind `-0.7`), while at `time = 100` it is
`30` (wind `0.3`). -/
theorem bannerWind_not_periodic_cex :
    bannerWind (-10) 0 0 0 ≠ bannerWind (-10) 0 0 (0 + 100) := by
  have e1 : bannerWind (-10) 0 0 0 = -7/10 := by
    unfold bannerWind
    rw [show ((-10 : ℤ) * 7 + 0 * 9 + 0 * 13 + 0) = -70 from by norm_num,
      show ((-70 : ℤ).tmod 100) = -70 from by decide]
    norm_num
  have e2 : bannerWind (-10) 0 0 (0 + 100) = 3/10 := by
    unfold bannerWind
    rw [show ((-10 : ℤ) * 7 + 0 * 9 + 0 * 13 + (0 + 100)) = 30 from by norm_num,
      show ((30 : ℤ).tmod 100) = 30 from by decide]
    norm_num
  rw [e1, e2]
  norm_num

/-- C9 (amended): for all integer block coordinates and times, the banner
flag angle lies within `π·[-0.0225, -0.0025]`, and the ANGLE is periodic in
time with period 100; `wind` itself is periodic whenever the linear
combination `x·7 + y·9 + z·13 + time` is nonnegative (as it is for
nonnegative structure coordinates and times), but not in general, since the
JS remainder is truncated. -/
theorem bannerAngle_bounds_periodic_amended :
    ∀ x y z time : ℤ,
      (Real.pi * (-0.0225) ≤ bannerAngle x y z time ∧
        bannerAngle x y z time ≤ Real.pi * (-0.0025)) ∧
      bannerAngle x y z (time + 100) = bannerAngle x y z time ∧
      (0 ≤ x * 7 + y * 9 + z * 13 + time →
        bannerWind x y z (time + 100) = bannerWind x y z time) := by
  intro x y z time
  refine ⟨⟨?_, ?_⟩, ?_, ?_⟩
  · unfold bannerAngle
    have hc := Real.neg_one_le_cos
      (Real.pi * 2 * ((bannerWind x y z time : ℚ) : ℝ))
    have hinner : (-0.0225 : ℝ) ≤
        -0.0125 + 0.01 * Real.cos (Real.pi * 2 * ((bannerWind x y z time : ℚ) : ℝ)) := by
      linarith
    exact mul_le_mul_of_nonneg_left hinner Real.pi_pos.le
  · unfold bannerAngle
    have hc := Real.cos_le_one
      (Real.pi * 2 * ((bannerWind x y z time : ℚ) : ℝ))
    have hinner :
        -0.0125 + 0.01 * Real.cos (Real.pi * 2 * ((bannerWind x y z time : ℚ) : ℝ))
          ≤ (-0.0025 : ℝ) := by
      linarith
    exact mul_le_mul_of_nonneg_left hinner Real.pi_pos.le
  · rcases bannerWind_succ x y z time with hcase | hcase
    · unfold bannerAngle
      rw [hcase]
    · unfold bannerAngle
      rw [hcase]
      rw [show (((bannerWind x y z time + 1 : ℚ)) : ℝ)
          = ((bannerWind x y z time : ℚ) : ℝ) + 1 from by push_cast; ring]
      rw [show Real.pi * 2 * (((bannerWind x y z time : ℚ) : ℝ) + 1)
          = Real.pi * 2 * ((bannerWind x y z time : ℚ) : ℝ) + 2 * Real.pi from by ring]
      rw [Real.cos_add_two_pi]
  · intro hnn
    unfold bannerWind
    rw [show x * 7 + y * 9 + z * 13 + (time + 100)
        = (x * 7 + y * 9 + z * 13 + time) + 100 from by ring]
    rw [Int.tmod_eq_emod (by omega) (by norm_num), Int.tmod_eq_emod hnn (by norm_num)]
    rw [show (x * 7 + y * 9 + z * 13 + time + 100) % 100
        = (x * 7 + y * 9 + z * 13 + time) % 100 from by omega]

/-- Witness for C9 at concrete nonnegative coordinates. -/
theorem bannerAngle_bounds_periodic_amended_witness :
    bannerWind 1 2 3 (4 + 100) = bannerWind 1 2 3 4 :=
  (bannerAngle_bounds_periodic_amended 1 2 3 4).2.2 (by decide)

end MCW
